import Mathlib

/-!
Shallow embedding of the tweet dedup index of `cancel-culture`
(`src/wbm/tweet/db.rs`), together with a spec-modelled digest engine
(the `wbm::digest` module is referenced by `src/bin/wbmd.rs` but its
source is not part of the repository snapshot).

The SQLite database behind `TweetStore` is modelled as four tables of
rows, each table a list in insertion order.  SQLite assigns rowids
`1, 2, 3, ...` to consecutive inserts and no operation of this module
ever deletes a row, so the rowid of a freshly inserted row is
`table.length + 1`, and `last_insert_rowid()` is the id returned by the
modelled insert.  String/integer equality in SQL `WHERE` clauses is
modelled with `==`; `query_row(...).optional()` on a `SELECT` becomes
`List.find?` (the first matching row, as SQLite scans), and SQL `LENGTH`
on a text column is the character count, matching `String.length`.

`add_tweets` opens a transaction whose drop behavior is set to
`DropBehavior::Commit` (db.rs line 115).  rusqlite's `Transaction`
executes its drop behavior when it goes out of scope, so when a `?`
inside `add_tweets` propagates an error the transaction is COMMITTED,
not rolled back: every write executed before the failing statement
stays visible.  The fallible model `add_tweetsF` makes this explicit by
threading the database through each statement and, on an injected
failure, returning the state as committed at that point
(`Except.error committedState`).
-/

/-- Row of the `user` table: `(id, twitter_id, screen_name, name)`. -/
structure UserRow where
  id : Int
  twitter_id : Nat
  screen_name : String
  name : String
  deriving DecidableEq, Repr

/-- Row of the `file` table: `(id, digest, primary_twitter_id)`. -/
structure FileRow where
  id : Int
  digest : String
  primary_twitter_id : Option Nat
  deriving DecidableEq, Repr

/-- Row of the `tweet` table:
`(id, twitter_id, parent_twitter_id, ts, user_twitter_id, content)`. -/
structure TweetRow where
  id : Int
  twitter_id : Nat
  parent_twitter_id : Nat
  ts : Int
  user_twitter_id : Nat
  content : String
  deriving DecidableEq, Repr

/-- Row of the `tweet_file` link table: `(tweet_id, file_id, user_id)`. -/
structure TweetFileRow where
  tweet_id : Int
  file_id : Int
  user_id : Int
  deriving DecidableEq, Repr

/-- The four tables owned by `TweetStore`, in insertion order. -/
structure DB where
  user : List UserRow
  file : List FileRow
  tweet : List TweetRow
  tweet_file : List TweetFileRow
  deriving DecidableEq, Repr

/-- The state of a freshly created schema: four empty tables. -/
def dbEmpty : DB := ⟨[], [], [], []⟩

/-- A parsed tweet as produced by the browser parser
(`crate::browser::twitter::parser::BrowserTweet`), with exactly the
fields `TweetStore` reads: `id`, `parent_id` (`None` when the tweet is
not a reply), capture time, author id, author screen name, author
display name and text. The constructor argument order matches
`BrowserTweet::new(id, parent, time, user_id, screen_name, name, text)`
as called in `get_tweet`. -/
structure BrowserTweet where
  id : Nat
  parent_id : Option Nat
  time : Int
  user_id : Nat
  user_screen_name : String
  user_name : String
  text : String
  deriving DecidableEq, Repr

/-- `USER_SELECT`: `SELECT id FROM user WHERE twitter_id = ? AND
screen_name = ? AND name = ?`, first match. -/
def USER_SELECT (db : DB) (tid : Nat) (sn nm : String) : Option Int :=
  (db.user.find? fun r =>
    r.twitter_id == tid && r.screen_name == sn && r.name == nm).map (·.id)

/-- `FILE_SELECT`: `SELECT id FROM file WHERE digest = ?`, first match. -/
def FILE_SELECT (db : DB) (digest : String) : Option Int :=
  (db.file.find? fun r => r.digest == digest).map (·.id)

/-- `TWEET_SELECT_FULL`: `SELECT id FROM tweet WHERE twitter_id = ? AND
parent_twitter_id = ? AND ts = ? AND user_twitter_id = ? AND content = ?`. -/
def TWEET_SELECT_FULL (db : DB) (tid parent : Nat) (ts : Int)
    (utid : Nat) (content : String) : Option Int :=
  (db.tweet.find? fun r =>
    r.twitter_id == tid && r.parent_twitter_id == parent && r.ts == ts &&
      r.user_twitter_id == utid && r.content == content).map (·.id)

/-- `TweetStore::check_digest`: a read-only `FILE_SELECT` under the read
lock; the second component is the connection state after the call
(unchanged — the function runs no write statement). -/
def check_digest (db : DB) (digest : String) : Option Int × DB :=
  (FILE_SELECT db digest, db)

/-- `TweetStore::add_user`: look the `(twitter_id, screen_name, name)`
triple up with `USER_SELECT`; insert a fresh row (`USER_INSERT`) and
return `last_insert_rowid()` only when no row matches. -/
def add_user (db : DB) (tid : Nat) (sn nm : String) : Int × DB :=
  match USER_SELECT db tid sn nm with
  | some id => (id, db)
  | none =>
      let newId : Int := db.user.length + 1
      (newId, { db with user := db.user ++ [⟨newId, tid, sn, nm⟩] })

/-- Whether the injected failure oracle makes the statement numbered
`ctr` return an error.  `none` injects no failure anywhere. -/
def failsAt (failAt : Option Nat) (ctr : Nat) : Bool :=
  match failAt with
  | none => false
  | some k => k == ctr

/-- Fallible `add_user` inside the `add_tweets` transaction: statement
`ctr` is the `USER_SELECT` query, statement `ctr + 1` (when reached) the
`USER_INSERT`.  On failure returns the database as it stands at that
point; on success returns the user id, the database and the next
statement number. -/
def add_userF (failAt : Option Nat) (db : DB) (ctr : Nat)
    (tid : Nat) (sn nm : String) : Except DB (Int × DB × Nat) :=
  if failsAt failAt ctr then .error db else
  match USER_SELECT db tid sn nm with
  | some id => .ok (id, db, ctr + 1)
  | none =>
      if failsAt failAt (ctr + 1) then .error db else
      let newId : Int := db.user.length + 1
      .ok (newId, { db with user := db.user ++ [⟨newId, tid, sn, nm⟩] }, ctr + 2)

/-- One iteration of the `for tweet in tweets` loop of `add_tweets`:
`add_user`, then the `TWEET_SELECT_FULL` lookup, then `TWEET_INSERT`
only when no row matched, then `TWEET_FILE_INSERT`.  A tweet with no
parent stores its own id as `parent_twitter_id`
(`tweet.parent_id.unwrap_or(tweet.id)`).  Each executed statement
consumes one number of the failure oracle; on failure the database as
written so far is returned (the transaction commits it on drop). -/
def tweetStepF (failAt : Option Nat) (fileId : Int) (t : BrowserTweet)
    (db : DB) (ctr : Nat) : Except DB (DB × Nat) :=
  match add_userF failAt db ctr t.user_id t.user_screen_name t.user_name with
  | .error db1 => .error db1
  | .ok (userId, db1, ctr1) =>
      if failsAt failAt ctr1 then .error db1 else
      let parent := t.parent_id.getD t.id
      match TWEET_SELECT_FULL db1 t.id parent t.time t.user_id t.text with
      | some tweetId =>
          if failsAt failAt (ctr1 + 1) then .error db1 else
          .ok ({ db1 with
                  tweet_file := db1.tweet_file ++ [⟨tweetId, fileId, userId⟩] },
               ctr1 + 2)
      | none =>
          if failsAt failAt (ctr1 + 1) then .error db1 else
          let tweetId : Int := db1.tweet.length + 1
          let db2 := { db1 with
            tweet := db1.tweet ++
              [⟨tweetId, t.id, parent, t.time, t.user_id, t.text⟩] }
          if failsAt failAt (ctr1 + 2) then .error db2 else
          .ok ({ db2 with
                  tweet_file := db2.tweet_file ++ [⟨tweetId, fileId, userId⟩] },
               ctr1 + 3)

/-- The `for tweet in tweets` loop of `add_tweets`. -/
def addTweetsLoopF (failAt : Option Nat) (fileId : Int) :
    List BrowserTweet → DB → Nat → Except DB DB
  | [], db, _ => .ok db
  | t :: rest, db, ctr =>
      match tweetStepF failAt fileId t db ctr with
      | .error db1 => .error db1
      | .ok (db1, ctr1) => addTweetsLoopF failAt fileId rest db1 ctr1

/-- `TweetStore::add_tweets` with an injected failure oracle.  Statement 0
is the unconditional `FILE_INSERT` (no lookup of the digest first); the
loop statements follow.  Because the transaction's drop behavior is
`DropBehavior::Commit`, the state returned in `Except.error` is the
state actually committed to the database when the error propagates. -/
def add_tweetsF (failAt : Option Nat) (db : DB) (digest : String)
    (primary_twitter_id : Option Nat) (tweets : List BrowserTweet) :
    Except DB DB :=
  if failsAt failAt 0 then .error db else
  let fileId : Int := db.file.length + 1
  let db1 := { db with file := db.file ++ [⟨fileId, digest, primary_twitter_id⟩] }
  addTweetsLoopF failAt fileId tweets db1 1

/-- `TweetStore::add_tweets` on the path where every statement succeeds. -/
def add_tweets (db : DB) (digest : String) (primary_twitter_id : Option Nat)
    (tweets : List BrowserTweet) : DB :=
  match add_tweetsF none db digest primary_twitter_id tweets with
  | .ok db1 => db1
  | .error db1 => db1

/-- The join of `TWEET_SELECT_BY_ID`:
`FROM tweet JOIN tweet_file ON tweet_file.tweet_id = tweet.id
JOIN file ON file.id = tweet_file.file_id
JOIN user ON user.id = tweet_file.user_id WHERE tweet.twitter_id = ?`. -/
def tweetJoinRows (db : DB) (tid : Nat) : List (TweetRow × FileRow × UserRow) :=
  (db.tweet.filter fun t => t.twitter_id == tid).flatMap fun t =>
    (db.tweet_file.filter fun tf => tf.tweet_id == t.id).flatMap fun tf =>
      (db.file.filter fun f => f.id == tf.file_id).flatMap fun f =>
        (db.user.filter fun u => u.id == tf.user_id).map fun u => (t, f, u)

/-- `ORDER BY LENGTH(content) DESC LIMIT 1`: one row of maximal content
length (SQLite fixes no order among ties; this model keeps the earliest
of the maximal rows). -/
def orderByLengthDescLimit1 :
    List (TweetRow × FileRow × UserRow) → Option (TweetRow × FileRow × UserRow)
  | [] => none
  | r :: rest =>
      match orderByLengthDescLimit1 rest with
      | none => some r
      | some b =>
          if b.1.content.length > r.1.content.length then some b else some r

/-- The row mapper of `get_tweet`: rebuild a `BrowserTweet` from the
selected columns, translating a stored `parent_twitter_id` equal to the
requested id back to "no parent", and pair it with the file digest. -/
def rowToPair (id : Nat) (r : TweetRow × FileRow × UserRow) :
    BrowserTweet × String :=
  (⟨id,
    if r.1.parent_twitter_id == id then none else some r.1.parent_twitter_id,
    r.1.ts, r.1.user_twitter_id, r.2.2.screen_name, r.2.2.name, r.1.content⟩,
   r.2.1.digest)

/-- One `query_row` of `TWEET_SELECT_BY_ID` for one status id; `none`
models `query_row` returning no row (the error branch logged and skipped
by `get_tweet`). -/
def get_tweetOne (db : DB) (id : Nat) : Option (BrowserTweet × String) :=
  (orderByLengthDescLimit1 (tweetJoinRows db id)).map (rowToPair id)

/-- `TweetStore::get_tweet`: per-id lookups; an id whose lookup fails is
logged and omitted, every other id is still processed, and the function
returns `Ok` with the collected pairs. -/
def get_tweet (db : DB) (status_ids : List Nat) : List (BrowserTweet × String) :=
  status_ids.filterMap (get_tweetOne db)

/-- `TweetStore::load_schema` followed by `execute_batch`: the schema file
`schemas/tweet.sql` (an external resource of the repository) creates the
four tables empty. -/
def load_schema : DB := dbEmpty

/-- `TweetStore::new`: `exists` is whether a store file is already at the
path (`some db` = it is, holding state `db`).  If it is and `recreate`
is set, a transaction drops the four tables and recreates them from the
schema; if no file is at the path the schema is created fresh; otherwise
the store is opened untouched. -/
def TweetStore.new (store : Option DB) (recreate : Bool) : DB :=
  match store with
  | some db =>
      if recreate then
        let db1 := { db with tweet := [] }
        let db2 := { db1 with user := [] }
        let db3 := { db2 with file := [] }
        let db4 := { db3 with tweet_file := [] }
        let _ := db4
        load_schema
      else db
  | none => load_schema

/-- Modelled from the spec: the digest engine (`wbm::digest`, used by
`src/bin/wbmd.rs` as `digest::compute_digest_gz`) is not among the
repository's source files.  The spec describes `compute_digest` as a
pure function from a byte stream to a hex-encoded cryptographic hash;
the hash itself is modelled as an executable 64-bit fold over the
bytes, rendered in hexadecimal. -/
def compute_digest (c : List Nat) : String :=
  ⟨Nat.toDigits 16
    (c.foldl (fun acc b => (acc * 257 + b % 256 + 1) % 2 ^ 64) 5381)⟩

/-- Modelled from the spec: gzip compression of a byte stream, abstracted
to its framing — a two-byte magic header `1f 8b` in front of the
content.  Only the framing matters to `compute_digest_gz`, which the
spec requires to invert it before hashing. -/
def gzipBytes (c : List Nat) : List Nat := 0x1f :: 0x8b :: c

/-- Modelled from the spec: gzip decompression; fails (`none`) when the
stream does not carry valid gzip framing. -/
def gunzipBytes : List Nat → Option (List Nat)
  | 0x1f :: 0x8b :: rest => some rest
  | _ => none

/-- Modelled from the spec: `compute_digest_gz` transparently
gzip-decompresses the stream, then computes the digest of the
decompressed bytes; a stream without valid gzip framing is a
decompression error (`none`). -/
def compute_digest_gz (s : List Nat) : Option String :=
  (gunzipBytes s).map compute_digest

/-- Concrete scenario tweet (spec section 8): id 100, no parent, captured
at time 5 by user 7, text "hi". -/
def tScenarioA : BrowserTweet := ⟨100, none, 5, 7, "sn", "nm", "hi"⟩

/-- The same logical tweet with the fuller text "hi there". -/
def tScenarioB : BrowserTweet := ⟨100, none, 5, 7, "sn", "nm", "hi there"⟩

/-- Concrete scenario store (spec section 8): file `d1` containing the
"hi" revision, then file `d2` containing both revisions. -/
def dbScenario : DB :=
  add_tweets (add_tweets dbEmpty "d1" none [tScenarioA]) "d2" none
    [tScenarioA, tScenarioB]

/-- The join row `get_tweet` should prefer in `dbScenario`: the
"hi there" revision captured by file `d2`. -/
def rScenario : TweetRow × FileRow × UserRow :=
  (⟨2, 100, 100, 5, 7, "hi there"⟩, ⟨2, "d2", none⟩, ⟨1, 7, "sn", "nm"⟩)

/-- A reply tweet whose parent id (50) differs from its own id (100). -/
def tReply : BrowserTweet := ⟨100, some 50, 5, 7, "sn", "nm", "hi"⟩

theorem orderByLength_eq_none (l : List (TweetRow × FileRow × UserRow)) :
    orderByLengthDescLimit1 l = none ↔ l = [] := by
  cases l with
  | nil => simp [orderByLengthDescLimit1]
  | cons a rest =>
      simp only [orderByLengthDescLimit1]
      cases hrest : orderByLengthDescLimit1 rest with
      | none => simp
      | some b =>
          by_cases hc : b.1.content.length > a.1.content.length
          · simp [hc]
          · simp [hc]

theorem orderByLength_mem : ∀ (l : List (TweetRow × FileRow × UserRow))
    (r : TweetRow × FileRow × UserRow),
    orderByLengthDescLimit1 l = some r → r ∈ l := by
  intro l
  induction l with
  | nil => intro r h; simp [orderByLengthDescLimit1] at h
  | cons a rest ih =>
      intro r h
      simp only [orderByLengthDescLimit1] at h
      cases hrest : orderByLengthDescLimit1 rest with
      | none =>
          simp only [hrest] at h
          injection h with h
          subst h
          exact List.mem_cons_self a rest
      | some b =>
          simp only [hrest] at h
          by_cases hc : b.1.content.length > a.1.content.length
          · rw [if_pos hc] at h
            injection h with h
            subst h
            exact List.mem_cons_of_mem a (ih b hrest)
          · rw [if_neg hc] at h
            injection h with h
            subst h
            exact List.mem_cons_self a rest

theorem orderByLength_max : ∀ (l : List (TweetRow × FileRow × UserRow))
    (r : TweetRow × FileRow × UserRow),
    orderByLengthDescLimit1 l = some r →
    ∀ s ∈ l, s.1.content.length ≤ r.1.content.length := by
  intro l
  induction l with
  | nil => intro r h; simp [orderByLengthDescLimit1] at h
  | cons a rest ih =>
      intro r h s hs
      simp only [orderByLengthDescLimit1] at h
      cases hrest : orderByLengthDescLimit1 rest with
      | none =>
          simp only [hrest] at h
          injection h with h
          subst h
          have hnil : rest = [] := (orderByLength_eq_none rest).mp hrest
          subst hnil
          rcases List.mem_cons.mp hs with hsa | hsr
          · subst hsa; exact le_refl _
          · simp at hsr
      | some b =>
          simp only [hrest] at h
          by_cases hc : b.1.content.length > a.1.content.length
          · rw [if_pos hc] at h
            injection h with h
            subst h
            rcases List.mem_cons.mp hs with hsa | hsr
            · subst hsa; omega
            · exact ih b hrest s hsr
          · rw [if_neg hc] at h
            injection h with h
            subst h
            rcases List.mem_cons.mp hs with hsa | hsr
            · subst hsa; exact le_refl _
            · have h1 := ih b hrest s hsr
              omega

theorem add_tweets_single (d : String) (p : Option Nat) (t : BrowserTweet) :
    add_tweets dbEmpty d p [t] =
      ⟨[⟨1, t.user_id, t.user_screen_name, t.user_name⟩], [⟨1, d, p⟩],
       [⟨1, t.id, t.parent_id.getD t.id, t.time, t.user_id, t.text⟩],
       [⟨1, 1, 1⟩]⟩ := rfl

/-- C1: the claim says any mid-sequence failure of `add_tweets` rolls the
whole transaction back, leaving the database unchanged.  The code sets
the transaction's drop behavior to `DropBehavior::Commit`, so when the
`USER_SELECT` lookup for the first tweet fails the already-executed
`FILE_INSERT` is committed as the transaction drops: the call reports
an error yet a `File` row written by that call is visible afterwards. -/
theorem C1_add_tweets_midfailure_commits :
    add_tweetsF (some 1) dbEmpty "d" none [⟨100, none, 5, 7, "sn", "nm", "hi"⟩]
      = .error ⟨[], [⟨1, "d", none⟩], [], []⟩ ∧
    (⟨[], [⟨1, "d", none⟩], [], []⟩ : DB) ≠ dbEmpty :=
  ⟨rfl, by decide⟩

/-- C2: inserting the same tweet identity tuple twice via two separate
`add_tweets` calls with two different file digests produces exactly one
`Tweet` row and two `TweetFile` link rows, one per call, both pointing
at that one `Tweet` row: the second call finds the row with
`TWEET_SELECT_FULL` instead of inserting a duplicate, but still records
a link to its own `File` row. -/
theorem C2_tweet_dedup_two_files (t : BrowserTweet) (d1 d2 : String)
    (p1 p2 : Option Nat) (h : d1 ≠ d2) :
    add_tweets (add_tweets dbEmpty d1 p1 [t]) d2 p2 [t] =
      ⟨[⟨1, t.user_id, t.user_screen_name, t.user_name⟩],
       [⟨1, d1, p1⟩, ⟨2, d2, p2⟩],
       [⟨1, t.id, t.parent_id.getD t.id, t.time, t.user_id, t.text⟩],
       [⟨1, 1, 1⟩, ⟨1, 2, 1⟩]⟩ := by
  rw [add_tweets_single]
  simp [add_tweets, add_tweetsF, addTweetsLoopF, tweetStepF, add_userF, failsAt,
    USER_SELECT, TWEET_SELECT_FULL, List.find?]

/-- Witness for C2 at the concrete tweet `tScenarioB` and digests
`"d1"`, `"d2"`. -/
theorem C2_tweet_dedup_two_files_witness :
    ("d1" : String) ≠ "d2" ∧
    add_tweets (add_tweets dbEmpty "d1" (some 9) [tScenarioB]) "d2" none
        [tScenarioB] =
      ⟨[⟨1, tScenarioB.user_id, tScenarioB.user_screen_name,
          tScenarioB.user_name⟩],
       [⟨1, "d1", some 9⟩, ⟨2, "d2", none⟩],
       [⟨1, tScenarioB.id, tScenarioB.parent_id.getD tScenarioB.id,
          tScenarioB.time, tScenarioB.user_id, tScenarioB.text⟩],
       [⟨1, 1, 1⟩, ⟨1, 2, 1⟩]⟩ :=
  ⟨by decide, C2_tweet_dedup_two_files tScenarioB "d1" "d2" (some 9) none
    (by decide)⟩

/-- C3: the same `twitter_id` observed with two different `screen_name`
values yields two distinct `User` rows, the first untouched; observing
the exact same `(twitter_id, screen_name, name)` triple again inserts
no row and returns the existing row's id. -/
theorem C3_user_rename_history (tid : Nat) (sn1 sn2 nm : String)
    (h : sn1 ≠ sn2) :
    (add_user (add_user dbEmpty tid sn1 nm).2 tid sn2 nm).2.user
      = [⟨1, tid, sn1, nm⟩, ⟨2, tid, sn2, nm⟩] ∧
    add_user (add_user (add_user dbEmpty tid sn1 nm).2 tid sn2 nm).2 tid sn1 nm
      = (1, (add_user (add_user dbEmpty tid sn1 nm).2 tid sn2 nm).2) := by
  have h2 : (sn1 == sn2) = false := by simp [h]
  constructor
  · simp [add_user, USER_SELECT, List.find?, h2, dbEmpty]
  · simp [add_user, USER_SELECT, List.find?, h2, dbEmpty]

/-- Witness for C3 at user 7 renaming from "a" to "b". -/
theorem C3_user_rename_history_witness :
    ("a" : String) ≠ "b" ∧
    ((add_user (add_user dbEmpty 7 "a" "n").2 7 "b" "n").2.user
       = [⟨1, 7, "a", "n"⟩, ⟨2, 7, "b", "n"⟩] ∧
     add_user (add_user (add_user dbEmpty 7 "a" "n").2 7 "b" "n").2 7 "a" "n"
       = (1, (add_user (add_user dbEmpty 7 "a" "n").2 7 "b" "n").2)) :=
  ⟨by decide, C3_user_rename_history 7 "a" "b" "n" (by decide)⟩

/-- C4: when `TWEET_SELECT_BY_ID` returns a row for a status id, that row
is one of the joined (tweet, file, user) rows for the id, its content
length is maximal among all stored revisions joined to their capturing
files and authoring users, and `get_tweet`'s per-id result is exactly
that revision paired with the digest of the file that captured it; in
particular, of two revisions differing only in content length the longer
one is returned (see the witness). -/
theorem C4_get_tweet_prefers_longest (db : DB) (id : Nat)
    (r : TweetRow × FileRow × UserRow)
    (h : orderByLengthDescLimit1 (tweetJoinRows db id) = some r) :
    r ∈ tweetJoinRows db id ∧
    (∀ s ∈ tweetJoinRows db id, s.1.content.length ≤ r.1.content.length) ∧
    get_tweetOne db id = some (rowToPair id r) := by
  refine ⟨orderByLength_mem _ r h, orderByLength_max _ r h, ?_⟩
  rw [get_tweetOne, h]
  rfl

/-- Witness for C4 on the concrete two-revision store `dbScenario`: the
"hi there" revision (captured by file `d2`) is longer than the "hi"
revision and is the one returned. -/
theorem C4_get_tweet_prefers_longest_witness :
    orderByLengthDescLimit1 (tweetJoinRows dbScenario 100) = some rScenario ∧
    (rScenario ∈ tweetJoinRows dbScenario 100 ∧
     (∀ s ∈ tweetJoinRows dbScenario 100,
        s.1.content.length ≤ rScenario.1.content.length) ∧
     get_tweetOne dbScenario 100 = some (rowToPair 100 rScenario)) :=
  ⟨by decide, C4_get_tweet_prefers_longest dbScenario 100 rScenario (by decide)⟩

/-- C5: a failing per-id lookup (here: an id with no stored revision at
all) never fails the whole `get_tweet` call: the failing id is omitted
from the returned sequence and every other id, before and after it, is
still processed. -/
theorem C5_get_tweet_skips_failing_id (db : DB) (ids1 ids2 : List Nat)
    (bad : Nat) (h : get_tweetOne db bad = none) :
    get_tweet db (ids1 ++ bad :: ids2) = get_tweet db ids1 ++ get_tweet db ids2 := by
  simp [get_tweet, h]

/-- Witness for C5 on `dbScenario`: id 5 is not stored, ids 100 around it
are still both returned. -/
theorem C5_get_tweet_skips_failing_id_witness :
    get_tweetOne dbScenario 5 = none ∧
    get_tweet dbScenario ([100] ++ 5 :: [100])
      = get_tweet dbScenario [100] ++ get_tweet dbScenario [100] :=
  ⟨by decide, C5_get_tweet_skips_failing_id dbScenario [100] [100] 5 (by decide)⟩

/-- C6: a tweet with no parent is stored with its own id as
`parent_twitter_id` (the self-referential sentinel,
`parent_id.getD id`), and reading it back through `get_tweet`
translates the sentinel to "no parent" while a distinct stored parent
id is read back as that parent: for any tweet whose parent, if present,
differs from its own id, the read-back is the tweet itself. -/
theorem C6_parent_sentinel_roundtrip (t : BrowserTweet) (d : String)
    (p : Option Nat) (h : ∀ q, t.parent_id = some q → q ≠ t.id) :
    (add_tweets dbEmpty d p [t]).tweet
      = [⟨1, t.id, t.parent_id.getD t.id, t.time, t.user_id, t.text⟩] ∧
    get_tweet (add_tweets dbEmpty d p [t]) [t.id] = [(t, d)] := by
  constructor
  · rw [add_tweets_single]
  · obtain ⟨tid, tp, tt, tu, tsn, tnm, ttx⟩ := t
    rw [add_tweets_single]
    simp only [get_tweet, get_tweetOne, tweetJoinRows, rowToPair,
      List.filterMap, List.filter, List.flatMap]
    cases tp with
    | none => simp [orderByLengthDescLimit1, rowToPair]
    | some q =>
        have hq : (q == tid) = false := by
          simpa using h q rfl
        simp [orderByLengthDescLimit1, rowToPair, hq]

/-- Witness for C6 at the reply tweet `tReply` (own id 100, parent 50):
its stored parent is 50 and it reads back unchanged; the first conjunct
also exhibits the sentinel formula. -/
theorem C6_parent_sentinel_roundtrip_witness :
    (∀ q, tReply.parent_id = some q → q ≠ tReply.id) ∧
    ((add_tweets dbEmpty "d" none [tReply]).tweet
       = [⟨1, tReply.id, tReply.parent_id.getD tReply.id, tReply.time,
           tReply.user_id, tReply.text⟩] ∧
     get_tweet (add_tweets dbEmpty "d" none [tReply]) [tReply.id]
       = [(tReply, "d")]) := by
  have h : ∀ q, tReply.parent_id = some q → q ≠ tReply.id := by
    intro q hq
    simp only [tReply] at hq ⊢
    injection hq with hq
    subst hq
    decide
  exact ⟨h, C6_parent_sentinel_roundtrip tReply "d" none h⟩

/-- C7: `check_digest` returns `Some` exactly when a `File` row with the
given digest exists in the store and `None` when none does, and it
performs no write: the database state after the call is the state
before it. -/
theorem C7_check_digest_lookup_readonly (db : DB) (digest : String) :
    ((check_digest db digest).1.isSome ↔ ∃ r ∈ db.file, r.digest = digest) ∧
    (check_digest db digest).2 = db := by
  refine ⟨?_, rfl⟩
  simp [check_digest, FILE_SELECT, List.find?_isSome]

/-- C8: `TweetStore::new` with an existing store and `recreate` set drops
the four tables and recreates the fixed schema (four empty tables)
before returning; with no existing store it creates the schema fresh;
with an existing store and `recreate` unset it leaves the state
untouched. -/
theorem C8_new_recreate_schema (db : DB) (recreate : Bool) :
    TweetStore.new (some db) true = dbEmpty ∧
    TweetStore.new none recreate = dbEmpty ∧
    TweetStore.new (some db) false = db :=
  ⟨rfl, rfl, rfl⟩

/-- C9: for every byte content `c`, `compute_digest_gz` applied to the
gzip compression of `c` succeeds and yields the same digest as
`compute_digest` applied to `c` directly. -/
theorem C9_compute_digest_gz_roundtrip (c : List Nat) :
    compute_digest_gz (gzipBytes c) = some (compute_digest c) := rfl

/-- C10: `add_tweets` with an empty tweets slice inserts exactly one new
`File` row for the digest — unconditionally, with no existence check on
the digest, since this holds for every starting state `db`, including
one already holding that digest — and leaves the `user`, `tweet` and
`tweet_file` tables unchanged. -/
theorem C10_add_tweets_empty_slice_file_insert (db : DB) (digest : String)
    (primary_twitter_id : Option Nat) :
    add_tweets db digest primary_twitter_id []
      = { db with
            file := db.file ++
              [⟨(db.file.length : Int) + 1, digest, primary_twitter_id⟩] } := rfl
